import Mathlib

/-!
# Verification of the LoRA dataset generator core
A shallow embedding, in Lean 4, of the core of the `rzem-ai-mj-lora`
repository:
* the permutation-template parser and the batch / dataset validators
  (TypeScript, `src/utils/validation.ts`, reproduced in `README.md`), and
* the `analyze_style` analysis orchestrator (Rust, `src-tauri/src/lib.rs`
  as listed in `docs/plans/2026-01-16-offline-mode-implementation.md`,
  Task 10) together with `offline_analyzer::analyze_style` (same
  document, Phase 4).
Strings are modelled as `List Char`.  The JavaScript numbers of the
validator are modelled exactly as decimal fractions (`Dec`, an
integer-scaled exact decimal grounded in `ℚ` through `Dec.toRat`); the
Rust memory figures are exact rationals.  No floating-point rounding is
modelled — every numeric value appearing in the claims is exactly
representable.  JavaScript code that can throw is embedded in `Except`;
total code is embedded as total functions.
-/

/-! ## Definitions -/

/-- JavaScript whitespace (the `\s` class and `String.prototype.trim`),
restricted to the ASCII whitespace characters; exotic Unicode whitespace
is not modelled. -/
def isJsWS (c : Char) : Bool :=
  c = ' ' || c = '\t' || c = '\n' || c = '\r' || c = '\x0b' || c = '\x0c'

/-- `String.prototype.trim`: drop leading and trailing whitespace. -/
def trim (l : List Char) : List Char :=
  ((l.dropWhile isJsWS).reverse.dropWhile isJsWS).reverse

/-- `String.prototype.split(',')`: split on commas, keeping empty pieces
(`"".split(',') = [""]`, `"a,".split(',') = ["a", ""]`). -/
def splitComma : List Char → List (List Char)
  | [] => [[]]
  | c :: rest =>
    if c = ',' then [] :: splitComma rest
    else
      match splitComma rest with
      | [] => [[c]]
      | g :: gs => (c :: g) :: gs

/-- Case-insensitive-free substring test, the semantics of
`String.prototype.includes` (the empty pattern is contained in every
string). -/
def listContains (hay pat : List Char) : Bool :=
  if pat.isPrefixOf hay then true
  else
    match hay with
    | [] => false
    | _ :: t => listContains t pat

/-- Scanner state machine equivalent to the global regex match
`prompt.match(/\{[^}]+\}/g)` of `calculatePermutationCount`:
a match starts at a `\x7b`, its body is a maximal non-empty run of
characters other than `\x7d`, and it ends at the first `\x7d`; scanning
resumes after the match.  `cur = some acc` means the scanner is inside a
candidate block whose body so far is `acc`; a block whose body is empty
(`\x7b\x7d`) is not a match and is skipped, exactly as the regex engine
does. -/
def scanBlocks : List Char → Option (List Char) → List (List Char)
  | [], _ => []
  | c :: rest, none =>
    if c = '{' then scanBlocks rest (some []) else scanBlocks rest none
  | c :: rest, some acc =>
    if c = '}' then
      if acc.isEmpty then scanBlocks rest none
      else acc :: scanBlocks rest none
    else scanBlocks rest (some (acc ++ [c]))

/-- The bodies of all `\x7b...\x7d` groups of a template, in order:
`prompt.match(/\{[^}]+\}/g)` with the braces stripped from each match
(`block.slice(1, -1)`). -/
def extractBlocks (s : List Char) : List (List Char) :=
  scanBlocks s none

/-- The option count of one group body: split on commas, trim each
token, drop the empty tokens, count (`validation.ts`,
`calculatePermutationCount`, inner loop). -/
def countOptions (b : List Char) : Nat :=
  (((splitComma b).map trim).filter (fun s => ¬s.isEmpty)).length

/-- `calculatePermutationCount` (`validation.ts`): 1 when the template has
no groups, otherwise the running product `totalCount *= options.length`
over the groups.  The function body never throws, so the source's
`try/catch` wrapper (returning 0) is dead code and adds nothing to the
embedding. -/
def calculatePermutationCount (s : List Char) : Nat :=
  let blocks := extractBlocks s
  if blocks.isEmpty then 1
  else blocks.foldl (fun acc b => acc * countOptions b) 1

/-- `hasValidPermutationSyntax` (`validation.ts`): the open- and
close-brace counts must agree, and every group body, once trimmed, must
be non-empty and contain a comma (`!content || !content.includes(',')`
fails the check). -/
def hasValidPermutationSyntax (s : List Char) : Bool :=
  if s.count '{' ≠ s.count '}' then false
  else
    (extractBlocks s).all fun b =>
      let content := trim b
      !content.isEmpty && content.contains ','

/-- One attempt of the regex `--sref\s+(\d+)` at the start of `s`:
the literal `--sref`, then at least one whitespace character, then the
maximal run of at least one ASCII digit, which is the captured group. -/
def matchSrefAt (s : List Char) : Option (List Char) :=
  if "--sref".data.isPrefixOf s then
    let rest := s.drop 6
    let ws := rest.takeWhile isJsWS
    if ws.isEmpty then none
    else
      let digits := (rest.drop ws.length).takeWhile Char.isDigit
      if digits.isEmpty then none else some digits
  else none

/-- The leftmost match of `--sref\s+(\d+)` in `s`, as its captured digit
run. -/
def findSref : List Char → Option (List Char)
  | [] => none
  | c :: rest =>
    match matchSrefAt (c :: rest) with
    | some d => some d
    | none => findSref rest

/-- `hasSrefCode` (`validation.ts`): the regex test `--sref\s+\d+` on the
prompt. -/
def hasSrefCode (s : List Char) : Bool :=
  (findSref s).isSome

/-- `extractSrefCode` (`validation.ts`): the first capture of the regex
`--sref\s+(\d+)`, or `null`. -/
def extractSrefCode (s : List Char) : Option String :=
  (findSref s).map fun d => String.mk d

/-- `schema.ts` `Priority` is the string union `'high'|'medium'|'low'`;
the validator receives the run-time string and checks it against the
enum, so the embedding keeps the raw string. -/
structure PermutationBatch where
  batch_number : Int
  batch_name : String
  category : String
  image_count : Int
  prompt : String
  priority : String
  notes : Option String := none

/-- The hard errors `validateBatch` can push, one constructor per
`errors.push` site, each carrying the data interpolated into the source
message. -/
inductive BatchError
  /-- "Batch generates N images, must be exactly 40" -/
  | countMismatch (calculated : Nat)
  /-- "Invalid permutation syntax" -/
  | invalidSyntax
  /-- "Missing --sref code in prompt" -/
  | missingSref
  /-- "SREF code mismatch: expected E, found F" -/
  | srefMismatch (expected : String) (found : Option String)
  /-- "Priority must be \"high\", \"medium\", or \"low\"" -/
  | invalidPriority
deriving DecidableEq

/-- The warnings `validateBatch` can push, one constructor per
`warnings.push` site. -/
inductive BatchWarning
  /-- "Prompt is quite long - consider simplifying" -/
  | promptTooLong
  /-- "Consider removing style keywords (…) - SREF handles styling" -/
  | styleKeywords (found : List String)
deriving DecidableEq

/-- The avoid-list `styleKeywords` of `validateBatch`. -/
def styleKeywordList : List String :=
  ["retro", "vintage", "70s", "80s", "poster", "illustration", "watercolor", "stylized"]

/-- `BatchValidation` (`schema.ts`). -/
structure BatchValidation where
  isValid : Bool
  errors : List BatchError
  warnings : List BatchWarning
  calculatedCount : Nat
  hasSrefCode : Bool
  hasValidSyntax : Bool
deriving DecidableEq

/-- `validateBatch` (`validation.ts`).  Every push site appears in
source order.  The empty expected code is JavaScript-falsy
(`else if (expectedSrefCode)`), so an empty string disables the
mismatch check exactly as `undefined` does.  `batch.prompt.length` is
the character count. -/
def validateBatch (batch : PermutationBatch) (expectedSrefCode : Option String) :
    BatchValidation :=
  let calculatedCount := calculatePermutationCount batch.prompt.data
  let hasValidSyntax := hasValidPermutationSyntax batch.prompt.data
  let hasSref := hasSrefCode batch.prompt.data
  let errors1 : List BatchError :=
    if calculatedCount ≠ 40 then [.countMismatch calculatedCount] else []
  let errors2 := errors1 ++
    (if !hasValidSyntax && batch.prompt.data.contains '{' then [.invalidSyntax] else [])
  let errors3 := errors2 ++
    (if !hasSref then [.missingSref]
     else match expectedSrefCode with
       | some expected =>
         if expected.data.isEmpty then []
         else
           let batchSref := extractSrefCode batch.prompt.data
           if batchSref ≠ some expected then [.srefMismatch expected batchSref] else []
       | none => [])
  let errors4 := errors3 ++
    (if !(["high", "medium", "low"].contains batch.priority) then [.invalidPriority] else [])
  let warnings1 : List BatchWarning :=
    if 200 < batch.prompt.data.length then [.promptTooLong] else []
  let found := styleKeywordList.filter fun kw =>
    listContains (batch.prompt.data.map Char.toLower) kw.data
  let warnings2 := warnings1 ++ (if !found.isEmpty then [.styleKeywords found] else [])
  { isValid := errors4.isEmpty
    errors := errors4
    warnings := warnings2
    calculatedCount := calculatedCount
    hasSrefCode := hasSref
    hasValidSyntax := hasValidSyntax }

/-- A batch meeting every hypothesis of claim C6 as written — expansion
count exactly 40, a marker embedding exactly the expected code, a legal
priority — but whose single-option group `\x7ba\x7d` fails the comma
requirement of the syntax check. -/
def exBatchC6 : PermutationBatch :=
  { batch_number := 1
    batch_name := "cx"
    category := "subjects"
    image_count := 40
    prompt := "\x7ba\x7d with \x7bb1,b2,b3,b4,b5,b6,b7,b8\x7d and \x7bc1,c2,c3,c4,c5\x7d --sref 1234567890"
    priority := "high" }

/-- A batch satisfying all hypotheses of the amended C6. -/
def exBatchOk : PermutationBatch :=
  { batch_number := 2
    batch_name := "ok"
    category := "subjects"
    image_count := 40
    prompt := "\x7ba1,a2,a3,a4,a5,a6,a7,a8\x7d with \x7bb1,b2,b3,b4,b5\x7d --sref 1234567890"
    priority := "high" }

/-- An exact decimal number `units / 10 ^ scale`.  JavaScript arithmetic
in the validator (parseFloat results, their sum, the distance from 100)
stays inside decimal fractions, which this type models exactly;
floating-point rounding is not modelled. -/
structure Dec where
  units : Int
  scale : Nat
deriving DecidableEq

/-- The rational value of an exact decimal. -/
def Dec.toRat (a : Dec) : ℚ :=
  (a.units : ℚ) / 10 ^ a.scale

/-- A JavaScript integer literal. -/
def Dec.ofInt (n : Int) : Dec :=
  ⟨n, 0⟩

/-- Addition after aligning the two scales. -/
def Dec.add (a b : Dec) : Dec :=
  let m := max a.scale b.scale
  ⟨a.units * 10 ^ (m - a.scale) + b.units * 10 ^ (m - b.scale), m⟩

/-- Negation. -/
def Dec.neg (a : Dec) : Dec :=
  ⟨-a.units, a.scale⟩

/-- Subtraction. -/
def Dec.sub (a b : Dec) : Dec :=
  Dec.add a (Dec.neg b)

/-- `Math.abs`. -/
def Dec.abs (a : Dec) : Dec :=
  ⟨if a.units < 0 then -a.units else a.units, a.scale⟩

/-- The `<` comparison, after aligning the two scales. -/
def Dec.lt (a b : Dec) : Bool :=
  let m := max a.scale b.scale
  decide (a.units * 10 ^ (m - a.scale) < b.units * 10 ^ (m - b.scale))

/-- The run-time value of one `optimal_subject_distribution` entry.
`schema.ts` declares the field as `Record<string, number>`, but the
validator calls `p.replace('%', '')` on each value, which only exists on
strings; the embedding therefore keeps the dynamic type so the
type-error path is representable. -/
inductive DistVal
  | num (q : Dec)
  | str (s : String)
deriving DecidableEq

/-- The JavaScript exception a validator can raise.  `typeError` is the
`TypeError: p.replace is not a function` raised when `.replace` is
called on a number. -/
inductive JsError
  | typeError
deriving DecidableEq

/-- `p.replace('%', '')` on a string: remove the first occurrence of
`%`. -/
def replacePercentOnce : List Char → List Char
  | [] => []
  | c :: rest => if c = '%' then rest else c :: replacePercentOnce rest

/-- Value of a digit run, most significant first. -/
def digitsVal (l : List Char) : Nat :=
  l.foldl (fun a c => a * 10 + (c.toNat - '0'.toNat)) 0

/-- JavaScript `parseFloat`, exactly: skip leading whitespace, optional
sign, integer digits, optional fractional digits; trailing junk is
ignored; no digits at all gives `NaN` (`none`).  Scientific notation and
the `Infinity` literal are not modelled (no claim exercises them). -/
def parseFloat (s : List Char) : Option Dec :=
  let t := s.dropWhile isJsWS
  let signedRest : Bool × List Char :=
    match t with
    | '-' :: r => (true, r)
    | '+' :: r => (false, r)
    | _ => (false, t)
  let intPart := signedRest.2.takeWhile Char.isDigit
  let t3 := signedRest.2.drop intPart.length
  let fracPart :=
    match t3 with
    | '.' :: r => r.takeWhile Char.isDigit
    | _ => []
  if intPart.isEmpty && fracPart.isEmpty then none
  else
    let mag : Int := (digitsVal intPart : Int) * 10 ^ fracPart.length + (digitsVal fracPart : Int)
    some ⟨if signedRest.1 then -mag else mag, fracPart.length⟩

/-- `parseFloat(p.replace('%', ''))` on one distribution value;
a number value raises `TypeError` because numbers have no `replace`
method. -/
def distValToPercent : DistVal → Except JsError (Option Dec)
  | .num _ => .error .typeError
  | .str s => .ok (parseFloat (replacePercentOnce s.data))

/-- JavaScript `+` with `NaN` (`none`) absorbing. -/
def jsAdd : Option Dec → Option Dec → Option Dec
  | some a, some b => some (Dec.add a b)
  | _, _ => none

/-- `percentages.reduce((sum, p) => sum + p, 0)`. -/
def sumPercents (l : List (Option Dec)) : Option Dec :=
  l.foldl jsAdd (some (Dec.ofInt 0))

/-- `StyleAnalysis` (`schema.ts`); carried by the specification but
never read by the validator. -/
structure StyleAnalysis where
  primary_style : String
  era_influence : String
  color_palette : List String
  key_characteristics : List String
  best_subjects : List String
  avoid_subjects : List String
deriving DecidableEq

/-- `TrainingRecommendations` (`schema.ts`, lines 16–19); the
distribution is an insertion-ordered object, embedded as an association
list so `Object.values` is `map Prod.snd`. -/
structure TrainingRecommendations where
  recommended_dataset_size : Int
  optimal_subject_distribution : List (String × DistVal)
deriving DecidableEq

/-- `PromptGuidelines` (`schema.ts`). -/
structure PromptGuidelines where
  keep_simple : Bool
  avoid_style_keywords : List String
  recommended_additions : List String
deriving DecidableEq

/-- `DatasetSpecification` (`schema.ts`). -/
structure DatasetSpecification where
  sref_code : String
  style_analysis : StyleAnalysis
  training_recommendations : TrainingRecommendations
  permutation_batches : List PermutationBatch
  prompt_guidelines : PromptGuidelines

/-- The hard errors `validateDatasetSpecification` can push, one
constructor per `errors.push` site. -/
inductive SpecError
  /-- "Only N batches - minimum 8 required" -/
  | tooFewBatches (n : Nat)
  /-- "Duplicate batch numbers found" -/
  | duplicateBatchNumbers
  /-- "Batch N: e1, e2, ..." — the folded-in hard errors of batch N -/
  | batchErrors (batchNumber : Int) (errs : List BatchError)
deriving DecidableEq

/-- The warnings `validateDatasetSpecification` can push, one
constructor per `warnings.push` site. -/
inductive SpecWarning
  /-- "SREF code should be a 10-digit number" -/
  | srefCodeFormat
  /-- "Batch N: w" — a folded-in warning of batch N -/
  | batchWarning (batchNumber : Int) (w : BatchWarning)
  /-- "Subject distribution totals T% - should be close to 100%" -/
  | distributionTotal (total : Dec)
  /-- "Total dataset size is T - minimum 50 recommended" -/
  | datasetTooSmall (total : Int)
  /-- "Total dataset size is T - consider reducing for more focused training" -/
  | datasetTooLarge (total : Int)
deriving DecidableEq

/-- `ValidationResult` (`schema.ts`). -/
structure ValidationResult where
  isValid : Bool
  errors : List SpecError
  warnings : List SpecWarning
deriving DecidableEq

/-- The `/^\d{10}$/` test on the SREF code. -/
def isTenDigitCode (s : String) : Bool :=
  s.data.length = 10 && s.data.all Char.isDigit

/-- One iteration of the `spec.permutation_batches.forEach` loop of
`validateDatasetSpecification`: fold the batch's hard errors in under a
"Batch N" prefix when the batch is invalid, and each of its warnings
likewise. -/
def specBatchStep (srefCode : String) (acc : List SpecError × List SpecWarning)
    (batch : PermutationBatch) : List SpecError × List SpecWarning :=
  let v := validateBatch batch (some srefCode)
  let es := if !v.isValid then acc.1 ++ [.batchErrors batch.batch_number v.errors] else acc.1
  let ws := acc.2 ++ v.warnings.map (SpecWarning.batchWarning batch.batch_number)
  (es, ws)

/-- `Object.values(distribution).map(p => parseFloat(p.replace('%', '')))`,
with the possible `TypeError` made explicit. -/
def distPercents (spec : DatasetSpecification) : Except JsError (List (Option Dec)) :=
  (spec.training_recommendations.optimal_subject_distribution.map Prod.snd).mapM
    distValToPercent

/-- The distribution total of a specification (`percentages.reduce`),
`none` meaning `NaN`. -/
def distTotal (spec : DatasetSpecification) : Except JsError (Option Dec) :=
  match distPercents spec with
  | .error e => .error e
  | .ok ps => .ok (sumPercents ps)

/-- `validateDatasetSpecification` (`validation.ts`).  All push sites in
source order: SREF-shape warning, batch-count error, duplicate-number
error, per-batch fold, distribution warning (`Math.abs(total - 100) > 5`),
dataset-size warnings.  The distribution step can raise `TypeError` (see
`distValToPercent`), which aborts the whole call — hence the `Except`
result. -/
def validateDatasetSpecification (spec : DatasetSpecification) :
    Except JsError ValidationResult :=
  let warnings1 : List SpecWarning :=
    if !isTenDigitCode spec.sref_code then [.srefCodeFormat] else []
  let errors1 : List SpecError :=
    if spec.permutation_batches.length < 8 then
      [.tooFewBatches spec.permutation_batches.length]
    else []
  let batchNumbers := spec.permutation_batches.map (·.batch_number)
  let errors2 := errors1 ++
    (if batchNumbers.dedup.length ≠ batchNumbers.length then [.duplicateBatchNumbers] else [])
  let ew := spec.permutation_batches.foldl (specBatchStep spec.sref_code) (errors2, warnings1)
  match distTotal spec with
  | .error e => .error e
  | .ok total =>
    let warnings3 := ew.2 ++
      (match total with
       | some t =>
         if Dec.lt (Dec.ofInt 5) (Dec.abs (Dec.sub t (Dec.ofInt 100))) then
           [.distributionTotal t]
         else []
       | none => [])
    let totalImages := (spec.permutation_batches.map (·.image_count)).sum
    let warnings4 := (warnings3 ++
      (if totalImages < 50 then [.datasetTooSmall totalImages] else [])) ++
      (if 200 < totalImages then [.datasetTooLarge totalImages] else [])
    .ok { isValid := ew.1.isEmpty, errors := ew.1, warnings := warnings4 }

/-- A style analysis, used to fill specifications in the examples. -/
def exStyleAnalysis : StyleAnalysis :=
  { primary_style := "retro travel poster"
    era_influence := "1970s"
    color_palette := ["teal", "mustard"]
    key_characteristics := ["grain"]
    best_subjects := ["landscapes"]
    avoid_subjects := ["text"] }

/-- Prompt guidelines, used to fill specifications in the examples. -/
def exGuidelines : PromptGuidelines :=
  { keep_simple := true
    avoid_style_keywords := ["retro"]
    recommended_additions := ["--ar 1:1"] }

/-- A specification conforming to the declared data model: the
distribution maps category names to numbers, exactly as `schema.ts`
declares `optimal_subject_distribution: Record<string, number>`. -/
def exSpecSchemaNumbers : DatasetSpecification :=
  { sref_code := "1234567890"
    style_analysis := exStyleAnalysis
    training_recommendations :=
      { recommended_dataset_size := 320
        optimal_subject_distribution :=
          [("portraits", .num (Dec.ofInt 60)), ("landscapes", .num (Dec.ofInt 40))] }
    permutation_batches := [exBatchOk]
    prompt_guidelines := exGuidelines }

/-- Discriminator for the distribution warning push site. -/
def isDistributionWarning : SpecWarning → Bool
  | .distributionTotal _ => true
  | _ => false

/-- Replace the distribution of a specification, leaving everything
else unchanged (used to state that the distribution check influences
only warnings). -/
def setDistribution (spec : DatasetSpecification) (d : List (String × DistVal)) :
    DatasetSpecification :=
  { spec with training_recommendations :=
      { spec.training_recommendations with optimal_subject_distribution := d } }

/-- A specification whose (string) distribution values total exactly
80. -/
def exSpec80 : DatasetSpecification :=
  { sref_code := "1234567890"
    style_analysis := exStyleAnalysis
    training_recommendations :=
      { recommended_dataset_size := 320
        optimal_subject_distribution := [("animals", .str "80%")] }
    permutation_batches := []
    prompt_guidelines := exGuidelines }

/-- The result `validateDatasetSpecification` returns on `exSpec80`. -/
def exResult80 : ValidationResult :=
  { isValid := false
    errors := [.tooFewBatches 0]
    warnings := [.distributionTotal (Dec.ofInt 80), .datasetTooSmall 0] }

/-- `settings::AnalysisMode`. -/
inductive AnalysisMode
  | CloudAPI
  | Offline
  | Auto
deriving DecidableEq

/-- `settings::ModelVariant`. -/
inductive ModelVariant
  | Qwen2VL2B
  | Qwen2VL7B
  | Qwen2VL72B
deriving DecidableEq

/-- `settings::AppSettings`, the immutable snapshot one run uses. -/
structure AppSettings where
  analysis_mode : AnalysisMode
  offline_model_variant : ModelVariant
  model_cache_dir : Option String
  auto_fallback : Bool
  keep_model_loaded : Bool
deriving DecidableEq

/-- `model_manager::ModelStatus`. -/
inductive ModelStatus
  | NotDownloaded
  | Downloading (progress : Dec)
  | Ready
  | Error (msg : String)
deriving DecidableEq

/-- `offline_analyzer::OfflineAnalysisError` with the rendered message
of each `#[error(...)]` attribute recorded in `renderOfflineError`. -/
inductive OfflineAnalysisError
  | ModelNotFound
  | InsufficientMemory (required available : ℚ)
  | ModelLoadError (msg : String)
  | InferenceFailed (msg : String)
  | ImageProcessingError (msg : String)
deriving DecidableEq

/-- The `Display` rendering of `OfflineAnalysisError` (`thiserror`
`#[error]` strings).  The two memory figures are rendered through
`Rat.num` because every declared requirement is integral, matching
Rust's `Display` for whole `f32` values. -/
def renderOfflineError : OfflineAnalysisError → String
  | .ModelNotFound => "Model not found. Please download the model first."
  | .InsufficientMemory required available =>
    "Insufficient memory. Requires " ++ toString required.num ++ "GB, available "
      ++ toString available.num ++ "GB"
  | .ModelLoadError msg => "Model loading failed: " ++ msg
  | .InferenceFailed msg => "Inference failed: " ++ msg
  | .ImageProcessingError msg => "Image processing failed: " ++ msg

/-- The declared memory requirement (GB) of each variant
(`check_system_requirements`). -/
def requiredGb : ModelVariant → ℚ
  | .Qwen2VL2B => 4
  | .Qwen2VL7B => 12
  | .Qwen2VL72B => 80

/-- `offline_analyzer::check_system_requirements`: the available memory
must reach the declared requirement of the selected variant. -/
def check_system_requirements (settings : AppSettings) (available : ℚ) :
    Except OfflineAnalysisError Unit :=
  let required := requiredGb settings.offline_model_variant
  if available < required then .error (.InsufficientMemory required available)
  else .ok ()

/-- The environment one local (offline) attempt runs in: what the system
probes and the collaborators return, each step abstracted as its
outcome. -/
structure LocalEnv where
  /-- `get_available_memory_gb()` -/
  availableMemoryGb : ℚ
  /-- `check_model_status(...)` -/
  modelStatusResult : Except String ModelStatus
  /-- `get_model_path(...)` -/
  modelPathResult : Except String String
  /-- `load_images(&image_paths)` -/
  imageLoadResult : Except String Unit
  /-- `Qwen2VLInference::new(...)` -/
  inferenceInit : Except String Unit
  /-- `inference.analyze_images(images, &prompt)` -/
  inferenceRun : Except String String

/-- `offline_analyzer::analyze_style`: pre-flight resource check, then
model readiness, then model path, image loading, model loading,
inference — failing at the first failing step with its typed error. -/
def offline_analyze_style (env : LocalEnv) (settings : AppSettings) :
    Except OfflineAnalysisError String :=
  match check_system_requirements settings env.availableMemoryGb with
  | .error e => .error e
  | .ok _ =>
    match env.modelStatusResult with
    | .error e => .error (.ModelLoadError e)
    | .ok status =>
      if status ≠ ModelStatus.Ready then .error .ModelNotFound
      else
        match env.modelPathResult with
        | .error e => .error (.ModelLoadError e)
        | .ok _ =>
          match env.imageLoadResult with
          | .error e => .error (.ImageProcessingError e)
          | .ok _ =>
            match env.inferenceInit with
            | .error e => .error (.ModelLoadError e)
            | .ok _ =>
              match env.inferenceRun with
              | .error e => .error (.InferenceFailed e)
              | .ok response => .ok response

/-- `AnalysisResult` (`lib.rs`): the uniform envelope both backends
produce. -/
structure AnalysisResult where
  data : String
  mode_used : String
  fallback_used : Bool
deriving DecidableEq

/-- How many times each backend was entered during a run (the remote
count is the number of `claude::analyze_style` calls, the local count
the number of `offline_analyzer::analyze_style` calls). -/
structure BackendCalls where
  remoteCalls : Nat
  localCalls : Nat
deriving DecidableEq

/-- The environment one `analyze_style` run sees: the loaded settings
snapshot, the credential probe, and each collaborator's outcome. -/
structure RunEnv where
  /-- `CLAUDE_API_KEY` or `ANTHROPIC_API_KEY` is set -/
  hasApiKey : Bool
  /-- `settings::load_settings().unwrap_or_default()` -/
  settings : AppSettings
  /-- collecting `read_and_encode_image` / `get_mime_type` over the paths -/
  imageEncode : Except String Unit
  /-- `claude::analyze_style(image_data, &sref_code)` -/
  claudeOutcome : Except String String
  /-- the collaborators behind the offline attempt -/
  localEnv : LocalEnv

/-- The `use_api` flag of `analyze_style` (`lib.rs`, Task 10): CloudAPI
and Auto use the API exactly when a key is present; Offline never
does.  Note the CloudAPI arm does not consult `auto_fallback` — with no
key it silently falls through to offline. -/
def useApi (env : RunEnv) : Bool :=
  match env.settings.analysis_mode with
  | .CloudAPI => env.hasApiKey
  | .Offline => false
  | .Auto => env.hasApiKey

/-- `analyze_style` (`lib.rs`, Task 10), paired with the backend call
counts of the run.  The offline block appears twice because the source
reaches it both by fallback (`fallback_used: use_api` is then true) and
directly (`use_api` false). -/
def analyze_style (env : RunEnv) : Except String AnalysisResult × BackendCalls :=
  let use_api := useApi env
  if use_api then
    match env.imageEncode with
    | .error e => (.error e, ⟨0, 0⟩)
    | .ok _ =>
      match env.claudeOutcome with
      | .ok result => (.ok ⟨result, "cloud", false⟩, ⟨1, 0⟩)
      | .error e =>
        if env.settings.auto_fallback then
          match offline_analyze_style env.localEnv env.settings with
          | .ok result => (.ok ⟨result, "offline", use_api⟩, ⟨1, 1⟩)
          | .error oe =>
            (.error ("Offline analysis error: " ++ renderOfflineError oe), ⟨1, 1⟩)
        else (.error ("Claude API error: " ++ e), ⟨1, 0⟩)
  else
    match offline_analyze_style env.localEnv env.settings with
    | .ok result => (.ok ⟨result, "offline", use_api⟩, ⟨0, 1⟩)
    | .error oe =>
      (.error ("Offline analysis error: " ++ renderOfflineError oe), ⟨0, 1⟩)

/-- A local environment in which every offline step succeeds. -/
def exLocalOk : LocalEnv :=
  { availableMemoryGb := 8
    modelStatusResult := .ok .Ready
    modelPathResult := .ok "/cache/models/qwen2-vl-2b"
    imageLoadResult := .ok ()
    inferenceInit := .ok ()
    inferenceRun := .ok "local-analysis-json" }

/-- A local environment whose pre-flight checks pass but whose
inference fails. -/
def exLocalInferenceFail : LocalEnv :=
  { availableMemoryGb := 8
    modelStatusResult := .ok .Ready
    modelPathResult := .ok "/cache/models/qwen2-vl-2b"
    imageLoadResult := .ok ()
    inferenceInit := .ok ()
    inferenceRun := .error "local inference exploded" }

/-- Mode CloudAPI, no credential, fallback disabled, local backend fully
functional: the input of claim C3. -/
def envC3 : RunEnv :=
  { hasApiKey := false
    settings :=
      { analysis_mode := .CloudAPI
        offline_model_variant := .Qwen2VL2B
        model_cache_dir := none
        auto_fallback := false
        keep_model_loaded := true }
    imageEncode := .ok ()
    claudeOutcome := .error "unreachable remote"
    localEnv := exLocalOk }

/-- Mode Auto, key present, fallback enabled, remote fails, local
succeeds. -/
def envC4 : RunEnv :=
  { hasApiKey := true
    settings :=
      { analysis_mode := .Auto
        offline_model_variant := .Qwen2VL2B
        model_cache_dir := none
        auto_fallback := true
        keep_model_loaded := true }
    imageEncode := .ok ()
    claudeOutcome := .error "rate limited"
    localEnv := exLocalOk }

/-- Mode Auto, key present, fallback disabled, remote fails. -/
def envC5 : RunEnv :=
  { hasApiKey := true
    settings :=
      { analysis_mode := .Auto
        offline_model_variant := .Qwen2VL2B
        model_cache_dir := none
        auto_fallback := false
        keep_model_loaded := true }
    imageEncode := .ok ()
    claudeOutcome := .error "server returned 500"
    localEnv := exLocalOk }

/-- Mode Auto, key present, fallback enabled, remote fails, and the
local attempt fails in inference: the input of claim C1. -/
def envC1 : RunEnv :=
  { hasApiKey := true
    settings :=
      { analysis_mode := .Auto
        offline_model_variant := .Qwen2VL2B
        model_cache_dir := none
        auto_fallback := true
        keep_model_loaded := true }
    imageEncode := .ok ()
    claudeOutcome := .error "remote connection refused"
    localEnv := exLocalInferenceFail }

/-! ## Theorems -/

theorem calculatePermutationCount_eq_prod (s : List Char) :
    calculatePermutationCount s = ((extractBlocks s).map countOptions).prod := by
  unfold calculatePermutationCount
  rw [List.prod_eq_foldl, List.foldl_map]
  cases h : extractBlocks s <;> simp

/-- C7: for every template string, `calculatePermutationCount` is the
product, over the bracket groups found by the scan, of the number of
non-empty trimmed comma-separated options of the group; it is 1 when the
string contains zero groups, and `"\x7ba,b,c\x7d with \x7bx,y\x7d"`
yields 3 × 2 = 6. -/
theorem c7_permutation_count_product :
    (∀ s : List Char,
        calculatePermutationCount s = ((extractBlocks s).map countOptions).prod)
    ∧ (∀ s : List Char, extractBlocks s = [] → calculatePermutationCount s = 1)
    ∧ calculatePermutationCount ("\x7ba,b,c\x7d with \x7bx,y\x7d".data) = 6
    ∧ extractBlocks ("a plain prompt".data) = []
    ∧ calculatePermutationCount ("a plain prompt".data) = 1 := by
  refine ⟨calculatePermutationCount_eq_prod, ?_, by decide, by decide, by decide⟩
  intro s h
  rw [calculatePermutationCount_eq_prod, h]
  rfl

/-- C8 counterexample: `"\x7ba\x7d"` has balanced braces and its only
group has exactly one non-empty trimmed option (`countOptions` is 1),
yet `hasValidPermutationSyntax` rejects it, because the source demands a
comma inside every group. -/
theorem c8_counterexample :
    ("\x7ba\x7d".data.count '{' = "\x7ba\x7d".data.count '}')
    ∧ extractBlocks ("\x7ba\x7d".data) = [['a']]
    ∧ trim ['a'] ≠ []
    ∧ countOptions ['a'] = 1
    ∧ hasValidPermutationSyntax ("\x7ba\x7d".data) = false := by
  refine ⟨by decide, by decide, by decide, by decide, by decide⟩

/-- C8 as amended: a template whose brace counts balance and in which
every present bracket group has non-empty trimmed content that contains
a comma is reported as syntactically valid.  (The source additionally
requires the comma, so a single-option group such as `"\x7ba\x7d"` is a
syntax error — the original claim fails there, see
`c8_counterexample`.) -/
theorem c8_amended_syntax_valid (s : List Char)
    (hbal : s.count '{' = s.count '}')
    (hblocks : ∀ b ∈ extractBlocks s,
        trim b ≠ [] ∧ (trim b).contains ',' = true) :
    hasValidPermutationSyntax s = true := by
  unfold hasValidPermutationSyntax
  rw [if_neg (by simp [hbal])]
  rw [List.all_eq_true]
  intro b hb
  obtain ⟨h1, h2⟩ := hblocks b hb
  simp only [Bool.and_eq_true, Bool.not_eq_true']
  exact ⟨by simpa [List.isEmpty_iff] using h1, h2⟩

/-- C8 witness: `"\x7ba, b\x7d ok"` satisfies the amended hypotheses and
is accepted. -/
theorem c8_amended_witness :
    hasValidPermutationSyntax ("\x7ba, b\x7d ok".data) = true :=
  c8_amended_syntax_valid ("\x7ba, b\x7d ok".data) (by decide) (by decide)

/-- C6 counterexample: `exBatchC6` expands to exactly 40 images
(1 × 8 × 5), carries the marker with exactly the expected code
`1234567890`, and has priority `high`, yet `validateBatch` reports the
hard error `invalidSyntax`, so the error list is not empty and the
claim as stated fails. -/
theorem c6_counterexample :
    calculatePermutationCount exBatchC6.prompt.data = 40
    ∧ hasSrefCode exBatchC6.prompt.data = true
    ∧ extractSrefCode exBatchC6.prompt.data = some "1234567890"
    ∧ exBatchC6.priority = "high"
    ∧ (validateBatch exBatchC6 (some "1234567890")).errors = [BatchError.invalidSyntax] := by
  refine ⟨by decide, by decide, ?_, rfl, ?_⟩ <;> decide

/-- C6 as amended: a batch whose expansion count is 40, **whose template
additionally passes the permutation-syntax check**, whose marker embeds
exactly the expected style code, and whose priority is one of
high/medium/low, produces an empty hard-error list.  (The syntax
hypothesis is forced by `c6_counterexample`: count 40 alone does not
imply the per-group comma requirement.) -/
theorem c6_amended_no_hard_errors (batch : PermutationBatch) (expected : String)
    (hcount : calculatePermutationCount batch.prompt.data = 40)
    (hsyn : hasValidPermutationSyntax batch.prompt.data = true)
    (hsref : hasSrefCode batch.prompt.data = true)
    (hcode : extractSrefCode batch.prompt.data = some expected)
    (hprio : batch.priority = "high" ∨ batch.priority = "medium" ∨ batch.priority = "low") :
    (validateBatch batch (some expected)).errors = [] := by
  unfold validateBatch
  simp only [hcount, hsyn, hsref, hcode]
  have hp : (["high", "medium", "low"].contains batch.priority) = true := by
    rcases hprio with h | h | h <;> simp [h]
  simp [hp]
  intro h1 h2
  rcases hprio with h | h | h <;> simp_all

/-- C6 witness: `exBatchOk` (8 × 5 = 40, valid syntax, correct marker,
priority high) gets an empty error list. -/
theorem c6_amended_witness :
    (validateBatch exBatchOk (some "1234567890")).errors = [] :=
  c6_amended_no_hard_errors exBatchOk "1234567890"
    (by decide) (by decide) (by decide) (by decide) (Or.inl rfl)

theorem Dec.cast_shift (u : Int) (s m : Nat) (h : s ≤ m) :
    ((u : ℚ) * 10 ^ (m - s)) / 10 ^ m = (u : ℚ) / 10 ^ s := by
  have hm : (10 : ℚ) ^ m = 10 ^ (m - s) * 10 ^ s := by
    rw [← pow_add]
    congr 1
    omega
  rw [hm, mul_comm (u : ℚ) _, mul_div_mul_left _ _ (pow_ne_zero _ (by norm_num))]

theorem Dec.toRat_ofInt (n : Int) : (Dec.ofInt n).toRat = (n : ℚ) := by
  simp [Dec.ofInt, Dec.toRat]

theorem Dec.toRat_add (a b : Dec) : (Dec.add a b).toRat = a.toRat + b.toRat := by
  unfold Dec.add Dec.toRat
  push_cast
  rw [add_div, Dec.cast_shift _ _ _ (le_max_left _ _),
    Dec.cast_shift _ _ _ (le_max_right _ _)]

theorem Dec.toRat_neg (a : Dec) : (Dec.neg a).toRat = -a.toRat := by
  unfold Dec.neg Dec.toRat
  push_cast
  rw [neg_div]

theorem Dec.toRat_sub (a b : Dec) : (Dec.sub a b).toRat = a.toRat - b.toRat := by
  unfold Dec.sub
  rw [Dec.toRat_add, Dec.toRat_neg, sub_eq_add_neg]

theorem Dec.toRat_abs (a : Dec) : (Dec.abs a).toRat = |a.toRat| := by
  unfold Dec.abs Dec.toRat
  by_cases h : a.units < 0
  · have hq : ((a.units : ℚ)) / 10 ^ a.scale ≤ 0 := by
      apply div_nonpos_of_nonpos_of_nonneg
      · exact_mod_cast h.le
      · positivity
    rw [if_pos h, abs_of_nonpos hq]
    push_cast
    rw [neg_div]
  · have hq : (0 : ℚ) ≤ (a.units : ℚ) / 10 ^ a.scale := by
      apply div_nonneg
      · exact_mod_cast Int.not_lt.mp h
      · positivity
    rw [if_neg h, abs_of_nonneg hq]

theorem Dec.lt_iff (a b : Dec) : Dec.lt a b = true ↔ a.toRat < b.toRat := by
  unfold Dec.lt
  rw [decide_eq_true_eq]
  have ha := Dec.cast_shift a.units a.scale (max a.scale b.scale) (le_max_left _ _)
  have hb := Dec.cast_shift b.units b.scale (max a.scale b.scale) (le_max_right _ _)
  unfold Dec.toRat
  rw [← ha, ← hb, div_lt_div_iff_of_pos_right (by positivity)]
  constructor
  · intro h
    exact_mod_cast h
  · intro h
    exact_mod_cast h

/-- C2 (code bug): on a specification whose distribution values are
numbers — the shape `schema.ts` itself declares — the validator reaches
`p.replace('%', '')` with a number and raises `TypeError` instead of
returning a structured result, contradicting both the claim and the
code's own type declaration.  (`validateBatch`, by contrast, is total:
its embedding returns a `BatchValidation` record on every input.) -/
theorem c2_number_distribution_throws :
    validateDatasetSpecification exSpecSchemaNumbers = Except.error JsError.typeError
    ∧ distValToPercent (DistVal.num (Dec.ofInt 60)) = Except.error JsError.typeError :=
  ⟨rfl, rfl⟩

theorem specBatchStep_no_distribution_warning (c : String)
    (l : List PermutationBatch) (acc : List SpecError × List SpecWarning)
    (h : acc.2.any isDistributionWarning = false) :
    ((l.foldl (specBatchStep c) acc).2).any isDistributionWarning = false := by
  induction l generalizing acc with
  | nil => exact h
  | cons b bs ih =>
    apply ih
    unfold specBatchStep
    simp only [List.any_append, List.any_map, h, Bool.false_or]
    simp [Function.comp_def, isDistributionWarning]

/-- C9: if a specification's distribution values parse and total `t`
with `|t − 100| ≤ 5` (inclusive tolerance), the returned result carries
no distribution warning; if they total exactly 80, the result carries
the distribution warning; and replacing the distribution never changes
the errors or `isValid` — the distribution check contributes warnings
only, never hard errors. -/
theorem c9_distribution_tolerance (spec : DatasetSpecification)
    (r : ValidationResult) (t : Dec)
    (h : validateDatasetSpecification spec = Except.ok r)
    (ht : distTotal spec = Except.ok (some t)) :
    (|t.toRat - 100| ≤ 5 → r.warnings.any isDistributionWarning = false)
    ∧ (t.toRat = 80 → SpecWarning.distributionTotal t ∈ r.warnings)
    ∧ (∀ r2 : ValidationResult,
        validateDatasetSpecification (setDistribution spec []) = Except.ok r2 →
        r2.errors = r.errors ∧ r2.isValid = r.isValid) := by
  unfold validateDatasetSpecification at h
  rw [ht] at h
  simp only [Except.ok.injEq] at h
  subst h
  have habs : (Dec.abs (Dec.sub t (Dec.ofInt 100))).toRat = |t.toRat - 100| := by
    rw [Dec.toRat_abs, Dec.toRat_sub, Dec.toRat_ofInt]
    norm_num
  refine ⟨?_, ?_, ?_⟩
  · intro hle
    simp only [List.any_append]
    have h2 : Dec.lt (Dec.ofInt 5) (Dec.abs (Dec.sub t (Dec.ofInt 100))) = false := by
      rw [← Bool.not_eq_true, Dec.lt_iff, habs, Dec.toRat_ofInt]
      push_cast
      exact not_lt.mpr hle
    rw [h2]
    have hbase : (if !isTenDigitCode spec.sref_code then
        [SpecWarning.srefCodeFormat] else []).any isDistributionWarning = false := by
      split <;> simp [isDistributionWarning]
    rw [specBatchStep_no_distribution_warning _ _ _ hbase]
    rw [if_neg Bool.false_ne_true]
    simp only [List.any_nil, Bool.false_or, Bool.or_eq_false_iff]
    constructor <;> (split <;> simp [isDistributionWarning])
  · intro ht80
    have h2 : Dec.lt (Dec.ofInt 5) (Dec.abs (Dec.sub t (Dec.ofInt 100))) = true := by
      rw [Dec.lt_iff, habs, Dec.toRat_ofInt, ht80]
      norm_num
    rw [h2]
    simp
  · intro r2 h2
    unfold validateDatasetSpecification at h2
    have hd : distTotal (setDistribution spec []) = Except.ok (some (Dec.ofInt 0)) := rfl
    rw [hd] at h2
    simp only [Except.ok.injEq] at h2
    subst h2
    exact ⟨rfl, rfl⟩

/-- C9 witness: `exSpec80` totals exactly 80 and the returned result
contains the distribution warning. -/
theorem c9_witness :
    SpecWarning.distributionTotal (Dec.ofInt 80) ∈ exResult80.warnings :=
  (c9_distribution_tolerance exSpec80 exResult80 (Dec.ofInt 80) (by rfl) (by rfl)).2.1
    (by simp [Dec.toRat_ofInt])

/-- C10: the `isValid` field of `validateBatch` is true exactly when its
error list is empty, and likewise for any result
`validateDatasetSpecification` returns; the warnings list never enters
either computation of `isValid`. -/
theorem c10_isValid_iff_errors_empty (b : PermutationBatch) (exp : Option String)
    (spec : DatasetSpecification) (r : ValidationResult)
    (h : validateDatasetSpecification spec = Except.ok r) :
    ((validateBatch b exp).isValid = true ↔ (validateBatch b exp).errors = [])
    ∧ (r.isValid = true ↔ r.errors = []) := by
  constructor
  · unfold validateBatch
    exact List.isEmpty_iff
  · unfold validateDatasetSpecification at h
    rcases hd : distTotal spec with e | total
    · rw [hd] at h
      exact absurd h (by simp)
    · rw [hd] at h
      simp only [Except.ok.injEq] at h
      subst h
      exact List.isEmpty_iff

/-- C10 witness: the equivalence instantiated at a concrete batch and at
the concrete result of a concrete specification. -/
theorem c10_witness :
    ((validateBatch exBatchOk (some "1234567890")).isValid = true
      ↔ (validateBatch exBatchOk (some "1234567890")).errors = [])
    ∧ (exResult80.isValid = true ↔ exResult80.errors = []) :=
  c10_isValid_iff_errors_empty exBatchOk (some "1234567890") exSpec80 exResult80 (by rfl)

/-- C3 (code bug): with mode CloudAPI, no credential and fallback
disabled, `analyze_style` does not fail — `use_api` is false, so the
run silently falls through to the offline backend, which is invoked
once and supplies the result.  The design sketch in the same document
(`else { return Err("API key not found") }`) and the claim both demand
an immediate failure with zero local calls. -/
theorem c3_cloudapi_no_key_runs_local :
    useApi envC3 = false
    ∧ analyze_style envC3 =
        (Except.ok ⟨"local-analysis-json", "offline", false⟩, ⟨0, 1⟩) :=
  ⟨rfl, rfl⟩

/-- C4: whenever fallback is enabled, the remote attempt is made
(`useApi` is true and image encoding succeeded) and fails, and the
local attempt succeeds, the run completes with `mode_used = "offline"`
and `fallback_used = true`, and each backend was entered exactly
once. -/
theorem c4_fallback_reports_local (env : RunEnv) (e payload : String)
    (hfb : env.settings.auto_fallback = true)
    (hapi : useApi env = true)
    (henc : env.imageEncode = Except.ok ())
    (hremote : env.claudeOutcome = Except.error e)
    (hlocal : offline_analyze_style env.localEnv env.settings = Except.ok payload) :
    analyze_style env = (Except.ok ⟨payload, "offline", true⟩, ⟨1, 1⟩) := by
  unfold analyze_style
  simp only [hapi, henc, hremote, hfb, hlocal, if_true]

/-- C4 witness. -/
theorem c4_witness :
    analyze_style envC4 =
      (Except.ok ⟨"local-analysis-json", "offline", true⟩, ⟨1, 1⟩) :=
  c4_fallback_reports_local envC4 "rate limited" "local-analysis-json"
    rfl rfl rfl rfl rfl

/-- C5: whenever fallback is disabled and the remote attempt is made and
fails, the run fails with the remote backend's error (under the
"Claude API error: " prefix) and the local backend is invoked zero
times. -/
theorem c5_no_fallback_surfaces_remote_error (env : RunEnv) (e : String)
    (hfb : env.settings.auto_fallback = false)
    (hapi : useApi env = true)
    (henc : env.imageEncode = Except.ok ())
    (hremote : env.claudeOutcome = Except.error e) :
    analyze_style env = (Except.error ("Claude API error: " ++ e), ⟨1, 0⟩) := by
  unfold analyze_style
  simp only [hapi, henc, hremote, hfb, if_true, Bool.false_eq_true, if_false]

/-- C5 witness. -/
theorem c5_witness :
    analyze_style envC5 =
      (Except.error ("Claude API error: " ++ "server returned 500"), ⟨1, 0⟩) :=
  c5_no_fallback_surfaces_remote_error envC5 "server returned 500" rfl rfl rfl rfl

/-- C1 counterexample: on `envC1` the remote attempt fails with
"remote connection refused" and the local attempt fails in inference,
yet the terminal error of `analyze_style` is built from the local cause
alone — the remote cause does not occur anywhere in the returned error
string, so the final error does not wrap both causes. -/
theorem c1_counterexample :
    analyze_style envC1 =
      (Except.error "Offline analysis error: Inference failed: local inference exploded",
        ⟨1, 1⟩)
    ∧ listContains
        "Offline analysis error: Inference failed: local inference exploded".data
        "remote connection refused".data = false := by
  refine ⟨rfl, by decide⟩

/-- C1 as amended: when the remote attempt fails, fallback is enabled,
and the local attempt also fails (pre-flight or inference), the terminal
error surfaces only the local cause under the "Offline analysis error: "
prefix; the remote cause is logged but not included in the returned
error.  (The original claim — that the terminal error wraps both
causes — fails, see `c1_counterexample`.) -/
theorem c1_amended_local_cause_only (env : RunEnv) (e : String)
    (oe : OfflineAnalysisError)
    (hfb : env.settings.auto_fallback = true)
    (hapi : useApi env = true)
    (henc : env.imageEncode = Except.ok ())
    (hremote : env.claudeOutcome = Except.error e)
    (hlocal : offline_analyze_style env.localEnv env.settings = Except.error oe) :
    analyze_style env =
      (Except.error ("Offline analysis error: " ++ renderOfflineError oe), ⟨1, 1⟩) := by
  unfold analyze_style
  simp only [hapi, henc, hremote, hfb, hlocal, if_true]

/-- C1 witness for the amended statement: `envC1` instantiates every
hypothesis, and the terminal error is exactly the rendered local
cause. -/
theorem c1_amended_witness :
    analyze_style envC1 =
      (Except.error ("Offline analysis error: "
        ++ renderOfflineError (OfflineAnalysisError.InferenceFailed "local inference exploded")),
        ⟨1, 1⟩) :=
  c1_amended_local_cause_only envC1 "remote connection refused"
    (OfflineAnalysisError.InferenceFailed "local inference exploded")
    rfl rfl rfl rfl rfl
